import Mathlib

/-!
# Verification of the event-driven paper-trading ledger engine

Shallow embedding of the repository's ledger engine (the `app_v7.py`
implementation together with the `app-v4.py` and `app.py` iterations it
rewrote) and proofs about it.

Modelling conventions:
* Python floats are modelled as exact rationals (`ℚ`); decimal literals in
  the source (`0.15`, `0.5`, `1000000.0`) are taken at their decimal value.
* Python's `round(x, n)` (round-half-to-even at `n` decimal places) is
  modelled by `pyRound n`.
* SQLite tables become Lean lists of structures.  Append-only journals are
  kept oldest-first (insert = append at the end); the `trades` table, which
  the code reads with `ORDER BY ... DESC LIMIT 1`, is kept newest-first
  (insert = cons), so `List.find?` is the `SELECT ... DESC LIMIT 1` and
  `updateFirst` is the keyed `UPDATE`.
* Timestamp, timeframe and raw-JSON audit columns, which no branch of the
  program ever reads back for a decision, are omitted from the row types.
* A SQLite transaction (`db_transaction` in `app_v7.py`) is modelled by
  running the body on the state and discarding its partial result on any
  exception (`rollback`); exceptions are modelled with `Except`.
-/

/-- Round-half-to-even to the nearest integer, as Python's builtin `round`
does for the integer case. -/
def roundHalfEven (x : ℚ) : ℤ :=
  if x - ⌊x⌋ < 1/2 then ⌊x⌋
  else if 1/2 < x - ⌊x⌋ then ⌊x⌋ + 1
  else if Even ⌊x⌋ then ⌊x⌋ else ⌊x⌋ + 1

/-- Python's `round(x, n)`: round half to even at `n` decimal places. -/
def pyRound (n : ℕ) (x : ℚ) : ℚ :=
  (roundHalfEven (x * 10 ^ n) : ℚ) / 10 ^ n

/-- `x` is representable with at most `n` decimal places. -/
def decNB (n : ℕ) (x : ℚ) : Bool := (x * 10 ^ n).den = 1

/-- `x` is representable with at most 8 decimal places. -/
def dec8B (x : ℚ) : Bool := decNB 8 x

/-- Substring occurrence test (Python's `pat in s`), used by the
symbol-precision lookup. -/
def strContains (s pat : String) : Bool := (s.splitOn pat).length != 1

/-- Keyed `UPDATE`: rewrite the first element satisfying `pred` (the row the
preceding `SELECT ... LIMIT 1` found). -/
def updateFirst (pred : α → Bool) (f : α → α) : List α → List α
  | [] => []
  | x :: xs => if pred x then f x :: xs else x :: updateFirst pred f xs

namespace V7

/-- Exceptions the `app_v7.py` webhook distinguishes: `ValueError` (mapped to
HTTP 400), `sqlite3.IntegrityError` on `UNIQUE(tag, event)` (mapped to the
`duplicate_ignored` response) and anything else (HTTP 500). -/
inductive Err
  | valueError (msg : String)
  | integrityUnique
  | otherError
  deriving DecidableEq, Repr

/-- One row of the `trades` table of `migrate_db_v7.py` (audit-only columns
omitted).  The table carries `UNIQUE(tag, event)`. -/
structure Trade where
  event : String
  side : String
  symbol : Option String
  price : ℚ
  tag : String
  qty : ℚ
  spent : Option ℚ
  status : String
  entry_price : Option ℚ
  exit_price : Option ℚ
  realized_pnl : Option ℚ
  deriving DecidableEq, Repr

/-- One row of the append-only `wallet_ledger` table. -/
structure LedgerEntry where
  type : String
  tag : Option String
  side : Option String
  qty : Option ℚ
  price : Option ℚ
  amount : ℚ
  balance_after : ℚ
  deriving DecidableEq, Repr

/-- The singleton `wallet` row (`id = 1`). -/
structure Wallet where
  balance : ℚ
  deriving DecidableEq, Repr

/-- One row of the `events` audit table (unknown events only). -/
structure EventRow where
  event : String
  tag : Option String
  deriving DecidableEq, Repr

/-- The durable state of `app_v7.py`: `wallet` (`none` = the row does not
exist yet), `wallet_ledger` (oldest first), `trades` (newest first) and the
`events` audit table (newest first). -/
structure DB where
  wallet : Option Wallet
  ledger : List LedgerEntry
  trades : List Trade
  events : List EventRow
  deriving DecidableEq, Repr

/-- The empty database produced by `migrate_db_v7.create_tables` before any
wallet row exists. -/
def initDB : DB := ⟨none, [], [], []⟩

/-- A webhook payload after JSON decoding: `safe_fnum` failures become
`none`, absent string fields become `none`. -/
structure Payload where
  secret : String
  event : String
  side : Option String
  symbol : Option String
  price : Option ℚ
  tag : Option String
  deriving DecidableEq, Repr

/-- `fetch_wallet` (`app_v7.py:106`): return the wallet row, creating it with
the 1,000,000 seed and an `INITIAL_DEPOSIT` ledger entry when absent. -/
def fetch_wallet (db : DB) : DB × ℚ :=
  match db.wallet with
  | some w => (db, w.balance)
  | none =>
      ({ db with
          wallet := some ⟨1000000⟩,
          ledger := db.ledger ++
            [(⟨"INITIAL_DEPOSIT", none, none, none, none, 1000000, 1000000⟩ : LedgerEntry)] },
        1000000)

/-- `get_symbol_precision` (`app_v7.py:125`). -/
def get_symbol_precision (symbol : String) : ℕ :=
  let sl := symbol.toLower
  if strContains sl "btc" || strContains sl "eth" || strContains sl "crypto" then 6
  else if strContains sl "nifty" || strContains sl "bank" ||
      strContains sl "nse:" || strContains sl "bse:" then 2
  else 4

/-- The allocation arithmetic of `handle_entry_event` (`app_v7.py:160`):
15% of the balance, quantity rounded to the symbol's precision, with the
division guarded by `price > 0`. -/
def entry_allocation (balance price : ℚ) (precision : ℕ) : ℚ × ℚ :=
  let allocation := pyRound 8 (balance * (15/100))
  let qty := if 0 < price then pyRound precision (allocation / price) else 0
  let spent := pyRound 8 (qty * price)
  (qty, spent)

/-- The P&L computation of `handle_exit_event` (`app_v7.py:219`): any side
other than `"BUY"` takes the `SELL` branch. -/
def exit_pnl (side : String) (price entry_price qty : ℚ) : ℚ :=
  if side = "BUY" then pyRound 8 ((price - entry_price) * qty)
  else pyRound 8 ((entry_price - price) * qty)

/-- `handle_entry_event` (`app_v7.py:139`): validate, allocate, append the
`ENTRY` ledger row, update the wallet, and insert the trade row; the insert
raises on the `UNIQUE(tag, event)` constraint. -/
def handle_entry_event (db : DB) (p : Payload) : Except Err DB :=
  match p.price, p.side, p.symbol, p.tag with
  | some price, some side, some symbol, some tag =>
    if price = 0 ∨ side = "" ∨ symbol = "" ∨ tag = "" then
      .error (.valueError "Missing required fields for ENTRY")
    else
      let fw := fetch_wallet db
      let balance := fw.2
      let qs := entry_allocation balance price (get_symbol_precision symbol)
      let qty := qs.1
      let spent := qs.2
      let new_balance := pyRound 8 (balance - spent)
      let db2 := { fw.1 with
        ledger := fw.1.ledger ++
          [(⟨"ENTRY", some tag, some side, some qty, some price, -spent, new_balance⟩ : LedgerEntry)],
        wallet := some ⟨new_balance⟩ }
      if db2.trades.any (fun t => t.tag = tag && t.event = "ENTRY") then
        .error .integrityUnique
      else
        .ok { db2 with
          trades := (⟨"ENTRY", side, some symbol, price, tag, qty, some spent,
            "OPEN", some price, none, none⟩ : Trade) :: db2.trades }
  | _, _, _, _ => .error (.valueError "Missing required fields for ENTRY")

/-- `handle_exit_event` (`app_v7.py:189`): find the newest `OPEN` `ENTRY`
trade for the tag, compute P&L, credit `spent + pnl` back, close the entry
trade and insert the exit trade row (which can itself violate
`UNIQUE(tag, event)`). -/
def handle_exit_event (db : DB) (p : Payload) : Except Err DB :=
  match p.tag, p.price, p.side with
  | some tag, some price, some side =>
    let event := p.event.toUpper
    if tag = "" ∨ event = "" ∨ price = 0 ∨ side = "" then
      .error (.valueError "Missing required fields for exit event")
    else
      match db.trades.find? (fun t =>
          t.tag = tag && t.event = "ENTRY" && t.status = "OPEN") with
      | none => .error (.valueError ("No open ENTRY trade found for tag: " ++ tag))
      | some trade =>
        match trade.entry_price, trade.spent with
        | some entry_price, some spent =>
          let qty := trade.qty
          let pnl := exit_pnl side price entry_price qty
          let credit := pyRound 8 (spent + pnl)
          let fw := fetch_wallet db
          let balance_before := fw.2
          let new_balance := pyRound 8 (balance_before + credit)
          let db2 := { fw.1 with
            ledger := fw.1.ledger ++
              [(⟨event, some tag, some side, some qty, some price, credit, new_balance⟩ : LedgerEntry)],
            wallet := some ⟨new_balance⟩ }
          let closeRow : Trade → Trade := fun t =>
            { t with status := "CLOSED", exit_price := some price, realized_pnl := some pnl }
          let db3 := { db2 with
            trades := updateFirst
              (fun t => t.tag = tag && t.event = "ENTRY" && t.status = "OPEN")
              closeRow db2.trades }
          if db3.trades.any (fun t => t.tag = tag && t.event = event) then
            .error .integrityUnique
          else
            .ok { db3 with
              trades := (⟨event, side, p.symbol, price, tag, qty, none,
                "CLOSED", none, none, some pnl⟩ : Trade) :: db3.trades }
        | _, _ => .error .otherError
  | _, _, _ => .error (.valueError "Missing required fields for exit event")

/-- `process_webhook` (`app_v7.py:255`): secret check, then dispatch on the
upper-cased event, logging unknown events to the `events` audit table. -/
def process_webhook (db : DB) (p : Payload) : Except Err DB :=
  if p.secret ≠ "MY_ULTRA_SECRET" then .error (.valueError "Invalid secret")
  else
    let event := p.event.toUpper
    if event = "ENTRY" then handle_entry_event db p
    else if event = "TARGET1" ∨ event = "STOPLOSS" ∨ event = "TARGET2" ∨
        event = "TARGET3" then handle_exit_event db p
    else .ok { db with events := (⟨event, p.tag⟩ : EventRow) :: db.events }

/-- `db_transaction` (`app_v7.py:53`): run the body; commit its state on
success, roll back to the pre-state on any exception. -/
def db_transaction (db : DB) (body : DB → Except Err DB) : Except Err DB × DB :=
  match body db with
  | .ok db' => (.ok db', db')
  | .error e => (.error e, db)

/-- The webhook's externally observable outcomes. -/
inductive Resp
  | ok
  | duplicate
  | clientError (msg : String)
  | serverError
  deriving DecidableEq, Repr

/-- `tv_webhook` (`app_v7.py:297`): run `process_webhook` inside a
transaction; a `UNIQUE constraint` violation becomes the
`duplicate_ignored` success response, a `ValueError` a 400, anything else
a 500. -/
def tv_webhook (db : DB) (p : Payload) : Resp × DB :=
  match db_transaction db (fun d => process_webhook d p) with
  | (.ok _, db') => (.ok, db')
  | (.error .integrityUnique, db') => (.duplicate, db')
  | (.error (.valueError m), db') => (.clientError m, db')
  | (.error .otherError, db') => (.serverError, db')

/-- Apply a stream of webhook payloads in order. -/
def applyEvents (db : DB) (ps : List Payload) : DB :=
  ps.foldl (fun d p => (tv_webhook d p).2) db

/-- `health` (`app_v7.py:288`): fetch (and possibly auto-create) the wallet
inside a transaction and report its balance; the transaction commits, so the
auto-creation persists. -/
def health (db : DB) : ℚ × DB :=
  let fw := fetch_wallet db
  (fw.2, fw.1)

/-- The state effect of the `dashboard` route (`app_v7.py:398`): it opens a
transaction, calls `fetch_wallet`, and then only runs read-only `SELECT`
queries for rendering, so its sole durable effect is `fetch_wallet`'s. -/
def dashboard_state (db : DB) : DB := (fetch_wallet db).1

/-- `clear_trades` (`app_v7.py:329`): inside one transaction, fetch the
wallet, delete all trades, and append a `CLEAR_TRADES` ledger entry of
amount 0 recording the preserved balance. -/
def clear_trades (db : DB) : DB :=
  let fw := fetch_wallet db
  let balance := fw.2
  { fw.1 with
    trades := [],
    ledger := fw.1.ledger ++ [(⟨"CLEAR_TRADES", none, none, none, none, 0, balance⟩ : LedgerEntry)] }

end V7

namespace V4

/-- One row of `app-v4.py`'s `trades` table, consolidated one-row-per-tag
(`tag` is `UNIQUE`); audit-only columns (timestamps, symbol, timeframe,
candle, signal levels, configured targets) are omitted as nothing reads
them back. -/
structure Trade where
  tag : String
  side : Option String
  entry : Option ℚ
  status : Option String
  qty : Option ℚ
  spent : Option ℚ
  realized_pnl : Option ℚ
  t1_price : Option ℚ
  t2_price : Option ℚ
  sl_price : Option ℚ
  deriving DecidableEq, Repr

/-- One row of `app-v4.py`'s append-only `ledger` table. -/
structure LedgerEntry where
  type : String
  trade_tag : Option String
  side : Option String
  qty : Option ℚ
  price : Option ℚ
  amount : ℚ
  balance_after : ℚ
  deriving DecidableEq, Repr

/-- The durable state of `app-v4.py`: single-row wallet, ledger (oldest
first), trades (newest first, `tag` unique) and the raw event log. -/
structure DB where
  wallet_balance : ℚ
  ledger : List LedgerEntry
  trades : List Trade
  events : List (String × String)
  deriving DecidableEq, Repr

/-- `TV_START_BALANCE` default (`app-v4.py:17`). -/
def START_BALANCE : ℚ := 1000000

/-- `TV_ALLOC_PCT` default (`app-v4.py:18`). -/
def ALLOCATION_PCT : ℚ := 1/2

/-- The state after `init_db` (`app-v4.py:34`): seeded wallet plus the
seeding `RESET` ledger entry. -/
def initDB : DB :=
  ⟨START_BALANCE,
   [(⟨"RESET", none, none, none, none, START_BALANCE, START_BALANCE⟩ : LedgerEntry)],
   [], []⟩

/-- `wallet_balance` (`app-v4.py:150`). -/
def wallet_balance (db : DB) : ℚ := db.wallet_balance

/-- `wallet_apply` (`app-v4.py:154`): add `delta` to the balance and append
the corresponding ledger entry. -/
def wallet_apply (db : DB) (delta : ℚ) (ltype : String) (tag : Option String)
    (side : Option String) (qty price : Option ℚ) : DB :=
  let new_bal := db.wallet_balance + delta
  { db with
    wallet_balance := new_bal,
    ledger := db.ledger ++ [(⟨ltype, tag, side, qty, price, delta, new_bal⟩ : LedgerEntry)] }

/-- `allocate_for_entry` (`app-v4.py:166`): commit `ALLOCATION_PCT` of the
balance; on non-positive price or allocation return `(0, 0)` without
dividing. -/
def allocate_for_entry (db : DB) (price : ℚ) : ℚ × ℚ :=
  let alloc_cash := wallet_balance db * ALLOCATION_PCT
  if price ≤ 0 ∨ alloc_cash ≤ 0 then (0, 0)
  else
    let qty := alloc_cash / price
    (qty, qty * price)

/-- The P&L formula of `realize` (`app-v4.py:291`): a trade whose stored
side is anything but `"BUY"` (including `NULL`) takes the `SELL` branch. -/
def realize_pnl (side_tr : Option String) (entry exit_price q : ℚ) : ℚ :=
  if side_tr = some "BUY" then (exit_price - entry) * q else (entry - exit_price) * q

/-- `realize` (`app-v4.py:287`): close the portion `part` of the trade's
quantity, credit the sale proceeds, and update the trade row with `setc`
plus the accumulated realized P&L. -/
def realize (db : DB) (trade : Trade) (tag : String) (part exit_price : ℚ)
    (ltype : String) (setc : Trade → Trade) : DB :=
  let qty_total := trade.qty.getD 0
  let entry := trade.entry.getD 0
  let realized := trade.realized_pnl.getD 0
  let q := max 0 (qty_total * part)
  let proceeds := q * exit_price
  let pnl := realize_pnl trade.side entry exit_price q
  let db1 := wallet_apply db proceeds ltype (some tag) trade.side (some q) (some exit_price)
  { db1 with
    trades := updateFirst (fun t => t.tag = tag)
      (fun t => { setc t with realized_pnl := some (realized + pnl) }) db1.trades }

/-- A decoded `app-v4.py` webhook body; `price` is
`float(body.get("price", 0) or 0)`, strings default to `""`. -/
structure Body where
  secret : String
  event : String
  side : String
  price : ℚ
  tag : String
  deriving DecidableEq, Repr

/-- The responses `app-v4.py`'s webhook can produce. -/
inductive Resp
  | ok
  | unknownTag
  | badSecret
  deriving DecidableEq, Repr

/-- Python `s or None` for strings. -/
def optStr (s : String) : Option String := if s = "" then none else some s

/-- Python `x if x else None` for numbers. -/
def optQ (x : ℚ) : Option ℚ := if x = 0 then none else some x

/-- `tv_webhook` (`app-v4.py:192`): log the raw event, then either upsert an
`ENTRY` trade with its cash allocation, or dispatch the exit event through
`realize`; the 50%/100% split is keyed on whether `t1_price` is set. -/
def tv_webhook (db : DB) (b : Body) : Resp × DB :=
  if b.secret ≠ "MY_ULTRA_SECRET" then (.badSecret, db)
  else
    let event := b.event.toUpper
    let side := b.side.toUpper
    let price := b.price
    let tag := b.tag
    let db0 := { db with events := (event, tag) :: db.events }
    if event = "ENTRY" then
      let qs := allocate_for_entry db0 price
      let qty := qs.1
      let spend := qs.2
      let db1 :=
        if 0 < qty ∧ 0 < spend then
          wallet_apply db0 (-spend) ("ENTRY_" ++ (if side = "" then "NA" else side))
            (some tag) (optStr side) (some qty) (some price)
        else db0
      let cols : Trade := ⟨tag, optStr side, optQ price, some "OPEN", optQ qty,
        optQ spend, some 0, none, none, none⟩
      let upsertRow : Trade → Trade := fun t =>
        { cols with t1_price := t.t1_price, t2_price := t.t2_price, sl_price := t.sl_price }
      if db1.trades.any (fun t => t.tag = tag) then
        (.ok, { db1 with
          trades := updateFirst (fun t => t.tag = tag) upsertRow db1.trades })
      else (.ok, { db1 with trades := cols :: db1.trades })
    else
      match db0.trades.find? (fun t => t.tag = tag) with
      | none => (.unknownTag, db0)
      | some trade =>
        let t1_done := trade.t1_price.isSome
        if event = "TARGET1" ∧ 0 < price then
          if t1_done then (.ok, db0)
          else (.ok, realize db0 trade tag (1/2) price "EXIT_T1"
            (fun t => { t with t1_price := some price, status := some "PARTIAL" }))
        else if event = "TARGET2" ∧ 0 < price then
          let part := if t1_done then (1:ℚ)/2 else 1
          (.ok, realize db0 trade tag part price "EXIT_T2"
            (fun t => { t with t2_price := some price, status := some "CLOSED_T2" }))
        else if event = "STOPLOSS" ∧ 0 < price then
          let part := if t1_done then (1:ℚ)/2 else 1
          (.ok, realize db0 trade tag part price "EXIT_SL"
            (fun t => { t with sl_price := some price, status := some "CLOSED_SL" }))
        else (.ok, db0)

/-- `clear_db` (`app-v4.py:448`): delete all trades and events; the wallet
and the ledger are untouched. -/
def clear_db (db : DB) : DB := { db with trades := [], events := [] }

/-- Apply a stream of webhook bodies in order. -/
def applyBodies (db : DB) (bs : List Body) : DB :=
  bs.foldl (fun d b => (tv_webhook d b).2) db

end V4

namespace V1

/-- One row of `app.py`'s `trades` table (audit columns omitted);
`id` is the autoincrement key. -/
structure TradeRow where
  id : ℕ
  event : String
  side : String
  symbol : String
  price : ℚ
  tag : String
  wallet_after : ℚ
  deriving DecidableEq, Repr

/-- One row of `app.py`'s `wallet` table, which that iteration uses as an
append-only log (`SELECT balance ... ORDER BY id DESC LIMIT 1`). -/
structure WalletRow where
  id : ℕ
  balance : ℚ
  change : ℚ
  reason : String
  trade_id : Option ℕ
  deriving DecidableEq, Repr

/-- The durable state of `app.py`: both tables newest-first, with the next
autoincrement ids.  There is no transaction spanning several
`exec_with_retry` calls: each call commits on its own. -/
structure DB where
  trades : List TradeRow
  wallet : List WalletRow
  next_trade_id : ℕ
  next_wallet_id : ℕ
  deriving DecidableEq, Repr

/-- `get_wallet_balance` (`app.py:76`): newest wallet row, `0.0` if none. -/
def get_wallet_balance (db : DB) : ℚ :=
  match db.wallet with
  | [] => 0
  | w :: _ => w.balance

/-- `log_wallet_change` (`app.py:81`): append a wallet row in its own
committed transaction. -/
def log_wallet_change (db : DB) (balance_before balance_after : ℚ)
    (reason : String) (trade_id : Option ℕ) : DB :=
  { db with
    wallet := (⟨db.next_wallet_id, balance_after, balance_after - balance_before,
      reason, trade_id⟩ : WalletRow) :: db.wallet,
    next_wallet_id := db.next_wallet_id + 1 }

/-- The P&L formula of `app.py`'s exit branch (`app.py:233`). -/
def exit_pnl (side : String) (position_size price entry_price : ℚ) : ℚ :=
  if side = "BUY" then position_size * (price - entry_price) / entry_price
  else position_size * (entry_price - price) / entry_price

/-- A decoded `app.py` webhook body. -/
structure Payload where
  secret : String
  event : Option String
  side : Option String
  symbol : Option String
  price : Option ℚ
  tag : Option String
  deriving DecidableEq, Repr

/-- The responses `app.py`'s webhook can produce. -/
inductive Resp
  | ok
  | unauthorized
  | clientError
  | serverError
  deriving DecidableEq, Repr

/-- `tv_webhook` (`app.py:125`), with fault injection: the trade insert and
the wallet log are separate `exec_with_retry` transactions, each committing
on its own; `failBeforeWalletLog = true` models the second transaction
raising (a non-transient storage failure after the first already
committed), which the outer handler surfaces as HTTP 500. -/
def tv_webhook (db : DB) (p : Payload) (failBeforeWalletLog : Bool) : Resp × DB :=
  if p.secret ≠ "MY_ULTRA_SECRET" then (.unauthorized, db)
  else
    match p.event, p.side, p.symbol, p.price, p.tag with
    | some event, some side, some symbol, some price, some tag =>
      if event = "" ∨ side = "" ∨ symbol = "" ∨ price = 0 ∨ tag = "" then
        (.clientError, db)
      else if ¬(event = "ENTRY" ∨ event = "TARGET1" ∨ event = "TARGET2" ∨
          event = "STOPLOSS") then (.clientError, db)
      else if ¬(side = "BUY" ∨ side = "SELL") then (.clientError, db)
      else if event = "ENTRY" then
        let balance_before := get_wallet_balance db
        let position_size := balance_before * (3/10)
        let balance_after := balance_before - position_size
        let db1 := { db with
          trades := (⟨db.next_trade_id, event, side, symbol, price, tag,
            balance_after⟩ : TradeRow) :: db.trades,
          next_trade_id := db.next_trade_id + 1 }
        if failBeforeWalletLog then (.serverError, db1)
        else
          let trade_id := (db1.trades.find? (fun t => t.tag = tag)).map (·.id)
          (.ok, log_wallet_change db1 balance_before balance_after
            ("ENTRY_" ++ side ++ "_" ++ symbol) trade_id)
      else
        match db.trades.find? (fun t => t.tag = tag && t.event = "ENTRY") with
        | none => (.clientError, db)
        | some entry_trade =>
          if entry_trade.price = 0 then (.clientError, db)
          else
            let position_size :=
              match db.wallet.find? (fun w =>
                  w.trade_id = some entry_trade.id && w.reason.startsWith "ENTRY_") with
              | some w => |w.change|
              | none => get_wallet_balance db / (7/10) * (3/10)
            let pnl := exit_pnl side position_size price entry_trade.price
            let balance_before := get_wallet_balance db
            let balance_after := balance_before + position_size + pnl
            let db1 := { db with
              trades := (⟨db.next_trade_id, event, side, symbol, price, tag,
                balance_after⟩ : TradeRow) :: db.trades,
              next_trade_id := db.next_trade_id + 1 }
            if failBeforeWalletLog then (.serverError, db1)
            else
              let trade_id := (db1.trades.find? (fun t => t.tag = tag)).map (·.id)
              (.ok, log_wallet_change db1 balance_before balance_after
                (event ++ "_" ++ side ++ "_" ++ symbol) trade_id)
    | _, _, _, _, _ => (.clientError, db)

end V1

/-! ## Audit-reconciliation predicates

A ledger journal is viewed as its list of `(amount, balance_after)` pairs;
`chainOkB s` checks that every `balance_after` is the previous one (starting
from `s`) plus the entry's signed amount. -/

/-- Running-balance check over `(amount, balance_after)` pairs. -/
def chainOkB (s : ℚ) : List (ℚ × ℚ) → Bool
  | [] => true
  | e :: rest => decide (e.2 = s + e.1) && chainOkB e.2 rest

/-- The last recorded `balance_after`, `s` for an empty journal. -/
def lastBal (s : ℚ) : List (ℚ × ℚ) → ℚ
  | [] => s
  | e :: rest => lastBal e.2 rest

/-- Sum of the signed amounts of a journal. -/
def sumAmounts (l : List (ℚ × ℚ)) : ℚ := (l.map Prod.fst).sum

/-- The `(amount, balance_after)` journal of a v7 state. -/
def V7.ledgerPairs (db : V7.DB) : List (ℚ × ℚ) :=
  db.ledger.map fun e => (e.amount, e.balance_after)

/-- Audit reconciliation for a v7 state: before the wallet row exists the
journal is empty; afterwards the journal starts with the 1,000,000 seed
deposit, every `balance_after` extends the running balance by the entry's
amount, and the wallet's stored balance is both the last `balance_after`
and the sum of all signed amounts (hence the seed plus the sum of all
post-seed amounts); the stored balance stays on the 8-decimal grid that
`round(_, 8)` writes. -/
def V7.ledgerOkB (db : V7.DB) : Bool :=
  match db.wallet, db.ledger with
  | none, [] => true
  | none, _ :: _ => false
  | some _, [] => false
  | some w, e0 :: _ =>
      decide (e0.amount = 1000000) &&
      chainOkB 0 (V7.ledgerPairs db) &&
      decide (w.balance = lastBal 0 (V7.ledgerPairs db)) &&
      decide (w.balance = sumAmounts (V7.ledgerPairs db)) &&
      dec8B w.balance

/-- The `(amount, balance_after)` journal of a v4 state. -/
def V4.ledgerPairs (db : V4.DB) : List (ℚ × ℚ) :=
  db.ledger.map fun e => (e.amount, e.balance_after)

/-- Audit reconciliation for a v4 state (`init_db` seeds the journal with a
`RESET` entry for the full seed balance). -/
def V4.ledgerOkB (db : V4.DB) : Bool :=
  match db.ledger with
  | [] => false
  | e0 :: _ =>
      decide (e0.amount = 1000000) &&
      chainOkB 0 (V4.ledgerPairs db) &&
      decide (db.wallet_balance = lastBal 0 (V4.ledgerPairs db)) &&
      decide (db.wallet_balance = sumAmounts (V4.ledgerPairs db))

/-- The storage-layer `UNIQUE(tag, event)` constraint on the v7 `trades`
table, as a predicate on representable states. -/
def V7.TradesUnique (db : V7.DB) : Prop :=
  db.trades.Pairwise fun a b => ¬(a.tag = b.tag ∧ a.event = b.event)

instance (db : V7.DB) : Decidable (V7.TradesUnique db) := by
  unfold V7.TradesUnique; infer_instance

/-! ## Concrete states and payloads used in witnesses and counterexamples -/

/-- The v7 state after one applied `ENTRY` (`exEntry` from `initDB`):
wallet at 850,000 with the 150,000 allocation committed to tag `T1`. -/
def exDB9 : V7.DB :=
  ⟨some ⟨850000⟩,
   [⟨"INITIAL_DEPOSIT", none, none, none, none, 1000000, 1000000⟩,
    ⟨"ENTRY", some "T1", some "BUY", some 1500, some 100, -150000, 850000⟩],
   [⟨"ENTRY", "BUY", some "XYZ", 100, "T1", 1500, some 150000, "OPEN", some 100, none, none⟩],
   []⟩

/-- A well-formed v7 `ENTRY` payload (symbol `XYZ`, precision class 4). -/
def exEntry : V7.Payload :=
  ⟨"MY_ULTRA_SECRET", "ENTRY", some "BUY", some "XYZ", some 100, some "T1"⟩

/-- The matching v7 `TARGET1` exit payload. -/
def exExit : V7.Payload :=
  ⟨"MY_ULTRA_SECRET", "TARGET1", some "BUY", some "XYZ", some 110, some "T1"⟩

/-- A v7 exit payload for a tag that has no position. -/
def exOrphan : V7.Payload :=
  ⟨"MY_ULTRA_SECRET", "TARGET1", some "BUY", some "XYZ", some 10, some "NOPE"⟩

/-- An `app.py` state holding one applied `ENTRY` (trade id 1, 300,000
committed out of the 1,000,000 seed). -/
def exV1DB : V1.DB :=
  ⟨[⟨1, "ENTRY", "BUY", "SYM", 100, "T1", 700000⟩],
   [⟨2, 700000, -300000, "ENTRY_BUY_SYM", some 1⟩,
    ⟨1, 1000000, 1000000, "INITIAL_DEPOSIT", none⟩],
   2, 3⟩

/-- The matching `app.py` `TARGET1` exit payload. -/
def exV1Exit : V1.Payload :=
  ⟨"MY_ULTRA_SECRET", some "TARGET1", some "BUY", some "SYM", some 110, some "T1"⟩

/-- A v4 `ENTRY` body (LONG at 100 on tag `T1`). -/
def exV4Entry : V4.Body := ⟨"MY_ULTRA_SECRET", "ENTRY", "BUY", 100, "T1"⟩

/-- The matching v4 `TARGET1` body at price 110. -/
def exV4T1 : V4.Body := ⟨"MY_ULTRA_SECRET", "TARGET1", "BUY", 110, "T1"⟩

/-- The matching v4 `TARGET2` body at price 90. -/
def exV4T2 : V4.Body := ⟨"MY_ULTRA_SECRET", "TARGET2", "BUY", 90, "T1"⟩

/-! ## Basic lemmas: decimal grids and Python rounding -/

theorem roundHalfEven_intCast (n : ℤ) : roundHalfEven (n : ℚ) = n := by
  simp [roundHalfEven]

theorem dec8B_iff {x : ℚ} : dec8B x = true ↔ ∃ n : ℤ, x = (n : ℚ) / 10 ^ 8 := by
  unfold dec8B decNB
  rw [decide_eq_true_eq]
  constructor
  · intro h
    refine ⟨(x * 10 ^ 8).num, ?_⟩
    rw [eq_div_iff (by norm_num : ((10 : ℚ) ^ 8) ≠ 0)]
    exact (Rat.coe_int_num_of_den_eq_one h).symm
  · rintro ⟨n, rfl⟩
    rw [div_mul_cancel₀ _ (by norm_num : ((10 : ℚ) ^ 8) ≠ 0)]
    exact Rat.den_intCast n

theorem pyRound8_dec8_id {x : ℚ} (h : dec8B x = true) : pyRound 8 x = x := by
  obtain ⟨n, rfl⟩ := dec8B_iff.mp h
  unfold pyRound
  rw [div_mul_cancel₀ _ (by norm_num : ((10 : ℚ) ^ 8) ≠ 0), roundHalfEven_intCast]

theorem dec8B_pyRound8 (x : ℚ) : dec8B (pyRound 8 x) = true := by
  rw [dec8B_iff]; exact ⟨roundHalfEven (x * 10 ^ 8), rfl⟩

theorem dec8B_add {a b : ℚ} (ha : dec8B a = true) (hb : dec8B b = true) :
    dec8B (a + b) = true := by
  rw [dec8B_iff] at ha hb ⊢
  obtain ⟨m, rfl⟩ := ha
  obtain ⟨n, rfl⟩ := hb
  exact ⟨m + n, by push_cast; ring⟩

theorem dec8B_neg {a : ℚ} (ha : dec8B a = true) : dec8B (-a) = true := by
  rw [dec8B_iff] at ha ⊢
  obtain ⟨m, rfl⟩ := ha
  exact ⟨-m, by push_cast; ring⟩

theorem dec8B_sub {a b : ℚ} (ha : dec8B a = true) (hb : dec8B b = true) :
    dec8B (a - b) = true := by
  rw [sub_eq_add_neg]; exact dec8B_add ha (dec8B_neg hb)

theorem dec8B_million : dec8B 1000000 = true := by
  rw [dec8B_iff]; exact ⟨100000000000000, by norm_num⟩

/-! ## Basic lemmas: running-balance journals -/

theorem lastBal_append (s : ℚ) (l : List (ℚ × ℚ)) (e : ℚ × ℚ) :
    lastBal s (l ++ [e]) = e.2 := by
  induction l generalizing s with
  | nil => rfl
  | cons a t ih => simpa [lastBal] using ih a.2

theorem chainOkB_append (s : ℚ) (l : List (ℚ × ℚ)) (e : ℚ × ℚ) :
    chainOkB s (l ++ [e]) = (chainOkB s l && decide (e.2 = lastBal s l + e.1)) := by
  induction l generalizing s with
  | nil => simp [chainOkB, lastBal]
  | cons a t ih => simp [chainOkB, lastBal, ih a.2, Bool.and_assoc]

theorem sumAmounts_append (l : List (ℚ × ℚ)) (e : ℚ × ℚ) :
    sumAmounts (l ++ [e]) = sumAmounts l + e.1 := by
  simp [sumAmounts]

/-! ## Basic lemmas: the v7 transaction wrapper -/

theorem V7.db_transaction_rollback (db : V7.DB) (body : V7.DB → Except V7.Err V7.DB)
    (e : V7.Err) (h : body db = .error e) : V7.db_transaction db body = (.error e, db) := by
  unfold V7.db_transaction
  rw [h]

theorem V7.tv_webhook_eq_ok {db db' : V7.DB} {p : V7.Payload} :
    V7.tv_webhook db p = (V7.Resp.ok, db') ↔ V7.process_webhook db p = .ok db' := by
  unfold V7.tv_webhook V7.db_transaction
  cases h : V7.process_webhook db p with
  | ok d => simp [h]
  | error e => cases e <;> simp [h]

theorem V7.tv_webhook_not_ok_frame {db db' : V7.DB} {p : V7.Payload} {r : V7.Resp}
    (h : V7.tv_webhook db p = (r, db')) (hr : r ≠ V7.Resp.ok) : db' = db := by
  unfold V7.tv_webhook V7.db_transaction at h
  cases hw : V7.process_webhook db p with
  | ok d =>
      simp [hw] at h
      exact absurd h.1.symm hr
  | error e =>
      cases e <;> simp [hw] at h <;> exact h.2.symm

theorem V7.fetch_wallet_trades (db : V7.DB) : (V7.fetch_wallet db).1.trades = db.trades := by
  unfold V7.fetch_wallet
  cases db.wallet <;> rfl

theorem V7.tv_webhook_of_valueError {db : V7.DB} {p : V7.Payload} {m : String}
    (h : V7.process_webhook db p = .error (.valueError m)) :
    V7.tv_webhook db p = (.clientError m, db) := by
  unfold V7.tv_webhook V7.db_transaction
  simp [h]

theorem V7.tv_webhook_of_integrityUnique {db : V7.DB} {p : V7.Payload}
    (h : V7.process_webhook db p = .error .integrityUnique) :
    V7.tv_webhook db p = (.duplicate, db) := by
  unfold V7.tv_webhook V7.db_transaction
  simp [h]

/-! ## Claim C10: wallet auto-creation on read -/

/-- C10: in the v7 implementation, any operation that reads the balance —
`fetch_wallet`, and through it the nominally read-only `health` and
`dashboard` routes — creates the wallet row with the 1,000,000 seed and
appends an `INITIAL_DEPOSIT` ledger entry of that amount when no wallet row
exists (and the enclosing transaction commits that write); when a wallet
row exists, `fetch_wallet` returns it and mutates nothing. -/
theorem C10_balance_read_autocreates_wallet (db : V7.DB) :
    (db.wallet = none →
      V7.fetch_wallet db =
        ({ db with
            wallet := some ⟨1000000⟩,
            ledger := db.ledger ++
              [⟨"INITIAL_DEPOSIT", none, none, none, none, 1000000, 1000000⟩] },
          1000000) ∧
      V7.health db = (1000000, (V7.fetch_wallet db).1) ∧
      V7.dashboard_state db = (V7.fetch_wallet db).1) ∧
    (∀ w, db.wallet = some w →
      V7.fetch_wallet db = (db, w.balance) ∧
      V7.health db = (w.balance, db) ∧
      V7.dashboard_state db = db) := by
  constructor
  · intro h
    unfold V7.health V7.dashboard_state V7.fetch_wallet
    rw [h]
    exact ⟨rfl, rfl, rfl⟩
  · intro w h
    unfold V7.health V7.dashboard_state V7.fetch_wallet
    rw [h]
    exact ⟨rfl, rfl, rfl⟩

/-- Witness for C10 at the empty database. -/
theorem C10_witness :
    V7.fetch_wallet V7.initDB =
      ({ V7.initDB with
          wallet := some ⟨1000000⟩,
          ledger := [⟨"INITIAL_DEPOSIT", none, none, none, none, 1000000, 1000000⟩] },
        1000000) ∧
    V7.health V7.initDB = (1000000, (V7.fetch_wallet V7.initDB).1) ∧
    V7.dashboard_state V7.initDB = (V7.fetch_wallet V7.initDB).1 :=
  (C10_balance_read_autocreates_wallet V7.initDB).1 rfl

/-! ## Claim C9: the administrative reset -/

/-- C9 counterexample: from a reachable state with balance 850,000,
`clear_trades` (the only bulk-reset operation of the v7 implementation)
leaves the balance at 850,000 — it does not reset it to the 1,000,000
seed — and the entry it appends is a `CLEAR_TRADES` entry of amount 0;
no `RESET` ledger entry exists anywhere in the journal. -/
theorem C9_counterexample :
    (V7.clear_trades exDB9).wallet = some ⟨850000⟩ ∧
    (V7.clear_trades exDB9).wallet ≠ some ⟨1000000⟩ ∧
    (V7.clear_trades exDB9).ledger.getLast? =
      some ⟨"CLEAR_TRADES", none, none, none, none, 0, 850000⟩ ∧
    ¬(∃ e ∈ (V7.clear_trades exDB9).ledger, e.type = "RESET") := by
  refine ⟨by with_unfolding_all rfl, by with_unfolding_all decide, by with_unfolding_all rfl,
    by with_unfolding_all decide⟩

/-- C9 (amended): `clear_trades` atomically (inside one `db_transaction`)
deletes all trade rows and appends exactly one `CLEAR_TRADES` ledger entry
of amount 0 whose `balance_after` is the current balance; the account
balance is preserved, not reset to the seed, and no `RESET` entry is
written. -/
theorem C9_clear_trades_preserves_balance (db : V7.DB) (w : V7.Wallet)
    (h : db.wallet = some w) :
    V7.clear_trades db =
      { db with
        trades := [],
        ledger := db.ledger ++ [⟨"CLEAR_TRADES", none, none, none, none, 0, w.balance⟩] } := by
  unfold V7.clear_trades V7.fetch_wallet
  rw [h]
  simp [h]

/-- Witness for C9's amended theorem at the concrete state `exDB9`. -/
theorem C9_witness :
    V7.clear_trades exDB9 =
      { exDB9 with
        trades := [],
        ledger := exDB9.ledger ++ [⟨"CLEAR_TRADES", none, none, none, none, 0, 850000⟩] } :=
  C9_clear_trades_preserves_balance exDB9 ⟨850000⟩ rfl

/-! ## Claim C2: atomicity of the unit of work -/

/-- C2 counterexample: in the `app.py` iteration the exit path inserts the
trade row and logs the wallet change in two separately committed
transactions; when the second raises (injected non-transient fault), the
call fails with a server error, yet the trade table has changed while the
wallet has not — partial application is observable after the call
returns, refuting the claim for that implementation. -/
theorem C2_counterexample :
    (V1.tv_webhook exV1DB exV1Exit true).1 = V1.Resp.serverError ∧
    (V1.tv_webhook exV1DB exV1Exit true).2.trades ≠ exV1DB.trades ∧
    (V1.tv_webhook exV1DB exV1Exit true).2.wallet = exV1DB.wallet := by
  refine ⟨by with_unfolding_all rfl, by with_unfolding_all decide, by with_unfolding_all rfl⟩

/-- C2 (amended): in the v7 implementation the unit of work is atomic — a
body that fails at any point (any injected fault) is rolled back to the
pre-state by `db_transaction`, and a webhook call that does not return the
applied response leaves the database exactly as it was.  In the `app.py`
iteration the exit path commits the trade insert and the wallet log
separately, so a failure between them leaves the trade row visible with
the balance unmoved (counterexample). -/
theorem C2_v7_rollback_on_failure :
    (∀ (db : V7.DB) (body : V7.DB → Except V7.Err V7.DB) (e : V7.Err),
      body db = .error e → V7.db_transaction db body = (.error e, db)) ∧
    (∀ (db db' : V7.DB) (p : V7.Payload) (r : V7.Resp),
      V7.tv_webhook db p = (r, db') → r ≠ V7.Resp.ok → db' = db) :=
  ⟨V7.db_transaction_rollback,
   fun _ _ _ _ h hr => V7.tv_webhook_not_ok_frame h hr⟩

/-- Witness for C2's amended theorem: a body failing mid-unit on the
concrete state is rolled back, and a rejected webhook call leaves the
concrete state unchanged. -/
theorem C2_witness :
    V7.db_transaction exDB9 (fun _ => .error (V7.Err.valueError "fault"))
      = (.error (V7.Err.valueError "fault"), exDB9) ∧
    (V7.tv_webhook exDB9 ⟨"bad", "ENTRY", none, none, none, none⟩).2 = exDB9 :=
  ⟨C2_v7_rollback_on_failure.1 exDB9 _ _ rfl,
   C2_v7_rollback_on_failure.2 exDB9 exDB9 ⟨"bad", "ENTRY", none, none, none, none⟩
     (V7.Resp.clientError "Invalid secret") (by with_unfolding_all rfl)
     (by with_unfolding_all decide)⟩

/-! ## Claim C7: unknown-tag exits are rejected without side effects -/

/-- C7: in the v7 engine, an exit event whose tag has no trade row at all
is rejected synchronously as a `ValueError` naming the unknown tag (an
HTTP 400 client error), and the database is left exactly as it was — no
position, balance or ledger mutation. -/
theorem C7_unknown_tag_rejected (db : V7.DB) (p : V7.Payload) (tag : String)
    (hsec : p.secret = "MY_ULTRA_SECRET")
    (hev : p.event.toUpper = "TARGET1" ∨ p.event.toUpper = "STOPLOSS" ∨
      p.event.toUpper = "TARGET2" ∨ p.event.toUpper = "TARGET3")
    (htag : p.tag = some tag) (htagne : tag ≠ "")
    (hprice : ∃ q, p.price = some q ∧ q ≠ 0)
    (hside : ∃ s, p.side = some s ∧ s ≠ "")
    (hnotrade : ∀ t ∈ db.trades, t.tag ≠ tag) :
    V7.tv_webhook db p =
      (.clientError ("No open ENTRY trade found for tag: " ++ tag), db) := by
  obtain ⟨q, hq, hq0⟩ := hprice
  obtain ⟨s, hs, hs0⟩ := hside
  apply V7.tv_webhook_of_valueError
  have hfind : db.trades.find?
      (fun t => t.tag = tag && t.event = "ENTRY" && t.status = "OPEN") = none := by
    apply List.find?_eq_none.mpr
    intro t ht
    simp [hnotrade t ht]
  have hne : ¬ p.event.toUpper = "ENTRY" := by
    rcases hev with h | h | h | h <;> rw [h] <;> decide
  have hevne : ¬ p.event.toUpper = "" := by
    rcases hev with h | h | h | h <;> rw [h] <;> decide
  unfold V7.process_webhook V7.handle_exit_event
  rcases hev with h | h | h | h <;>
    simp [hsec, htag, hq, hs, hfind, hne, hevne, htagne, hq0, hs0, h]

/-- Witness for C7: a `TARGET1` for the unknown tag `NOPE` on the empty
database. -/
theorem C7_witness :
    V7.tv_webhook V7.initDB exOrphan =
      (.clientError ("No open ENTRY trade found for tag: " ++ "NOPE"), V7.initDB) :=
  C7_unknown_tag_rejected V7.initDB exOrphan "NOPE" rfl
    (Or.inl (by with_unfolding_all rfl)) rfl (by decide)
    ⟨10, rfl, by norm_num⟩ ⟨"BUY", rfl, by decide⟩
    (by intro t ht; simp [V7.initDB] at ht)

/-! ## Claim C5: realized P&L formulas -/

theorem pyRound_zero (n : ℕ) : pyRound n 0 = 0 := by
  unfold pyRound
  norm_num
  have h0 : roundHalfEven 0 = roundHalfEven ((0 : ℤ) : ℚ) := by norm_num
  rw [h0, roundHalfEven_intCast]

/-- C5 counterexample: the v7 exit P&L is rounded to 8 decimal places, so
for a LONG entered at 100, exited at `100 + 10⁻⁹` on quantity 1, the code
realizes 0 while the claimed formula `(x − e) × q` gives `10⁻⁹`. -/
theorem C5_counterexample :
    V7.exit_pnl "BUY" (100 + 1/1000000000) 100 1 = 0 ∧
    ¬ V7.exit_pnl "BUY" (100 + 1/1000000000) 100 1 =
        ((100 + 1/1000000000) - 100) * 1 := by
  refine ⟨by with_unfolding_all rfl, by with_unfolding_all decide⟩

/-- C5 (amended): `app-v4.py`'s `realize` and `app.py`'s exit path satisfy
the spec formula exactly — `(x − e) × q` for LONG (`BUY`), `(e − x) × q`
otherwise; the v7 implementation realizes the formula rounded to 8 decimal
places, hence exactly the formula whenever `(x − e) × q` lies on the
8-decimal grid — in particular +100 for the LONG example (entry 100, exit
110, quantity 10) and −100 for the SHORT one. -/
theorem C5_pnl_sign_and_magnitude :
    (∀ entry x q : ℚ,
      V4.realize_pnl (some "BUY") entry x q = (x - entry) * q ∧
      ∀ st : Option String, st ≠ some "BUY" → V4.realize_pnl st entry x q = (entry - x) * q) ∧
    (∀ e x q : ℚ, e ≠ 0 →
      V1.exit_pnl "BUY" (q * e) x e = (x - e) * q ∧
      V1.exit_pnl "SELL" (q * e) x e = (e - x) * q) ∧
    (∀ price entry qty : ℚ, dec8B ((price - entry) * qty) = true →
      V7.exit_pnl "BUY" price entry qty = (price - entry) * qty) ∧
    (∀ price entry qty : ℚ, dec8B ((entry - price) * qty) = true →
      V7.exit_pnl "SELL" price entry qty = (entry - price) * qty) ∧
    V7.exit_pnl "BUY" 110 100 10 = 100 ∧ V7.exit_pnl "SELL" 110 100 10 = -100 ∧
    V4.realize_pnl (some "BUY") 100 110 10 = 100 ∧
    V4.realize_pnl (some "SELL") 100 110 10 = -100 := by
  refine ⟨?_, ?_, ?_, ?_, ?_, ?_, ?_, ?_⟩
  · intro entry x q
    exact ⟨by simp [V4.realize_pnl], fun st hst => by simp [V4.realize_pnl, hst]⟩
  · intro e x q he
    unfold V1.exit_pnl
    constructor
    · rw [if_pos rfl]
      field_simp
      ring
    · rw [if_neg (by decide)]
      field_simp
      ring
  · intro price entry qty h
    unfold V7.exit_pnl
    rw [if_pos rfl]
    exact pyRound8_dec8_id h
  · intro price entry qty h
    unfold V7.exit_pnl
    rw [if_neg (by decide)]
    exact pyRound8_dec8_id h
  · with_unfolding_all rfl
  · with_unfolding_all rfl
  · with_unfolding_all rfl
  · with_unfolding_all rfl

/-- Witness for C5's amended theorem, instantiating its quantified parts at
the spec's own example (entry 100, exit 110, quantity 10). -/
theorem C5_witness :
    V4.realize_pnl (some "BUY") 100 110 10 = (110 - 100) * 10 ∧
    V1.exit_pnl "BUY" (10 * 100) 110 100 = (110 - 100) * 10 ∧
    V7.exit_pnl "BUY" 110 100 10 = (110 - 100) * 10 :=
  ⟨(C5_pnl_sign_and_magnitude.1 100 110 10).1,
   (C5_pnl_sign_and_magnitude.2.1 100 110 10 (by norm_num)).1,
   by rw [C5_pnl_sign_and_magnitude.2.2.1 110 100 10 (by with_unfolding_all decide)]⟩

/-! ## Claim C8: the entry allocator -/

/-- C8 counterexample: `allocate_for_entry` in `app-v4.py` performs no
precision rounding — with balance 2 and price 3 it returns quantity `1/3`,
which is not the quotient rounded to any of the precision classes
(2, 4 or 6 decimals) of `get_symbol_precision`. -/
theorem C8_counterexample :
    V4.allocate_for_entry ⟨2, [], [], []⟩ 3 = (1/3, 1) ∧
    ¬ (1 : ℚ)/3 = pyRound 2 (1/3) ∧
    ¬ (1 : ℚ)/3 = pyRound 4 (1/3) ∧
    ¬ (1 : ℚ)/3 = pyRound 6 (1/3) := by
  refine ⟨by with_unfolding_all rfl, by with_unfolding_all decide,
    by with_unfolding_all decide, by with_unfolding_all decide⟩

/-- C8 (amended): `allocate_for_entry` (`app-v4.py`) computes
`cash_committed = balance × fraction`, returns `(0, 0)` without evaluating
the division whenever `price ≤ 0` or `cash_committed ≤ 0`, and otherwise
returns exactly `(cash_committed / price, cash_committed)` — no precision
rounding.  The precision-class rounding lives only in the v7 entry path,
which guards the division by `price > 0` (returning `(0, 0)` there) but
has no guard for a non-positive allocation. -/
theorem C8_allocator (db : V4.DB) (price : ℚ) :
    (price ≤ 0 ∨ V4.wallet_balance db * V4.ALLOCATION_PCT ≤ 0 →
      V4.allocate_for_entry db price = (0, 0)) ∧
    (0 < price → 0 < V4.wallet_balance db * V4.ALLOCATION_PCT →
      V4.allocate_for_entry db price =
        (V4.wallet_balance db * V4.ALLOCATION_PCT / price,
         V4.wallet_balance db * V4.ALLOCATION_PCT)) ∧
    (∀ (balance : ℚ) (prec : ℕ), price ≤ 0 →
      V7.entry_allocation balance price prec = (0, 0)) ∧
    (∀ (balance : ℚ) (prec : ℕ), 0 < price →
      (V7.entry_allocation balance price prec).1 =
        pyRound prec (pyRound 8 (balance * (15/100)) / price)) := by
  refine ⟨?_, ?_, ?_, ?_⟩
  · intro h
    unfold V4.allocate_for_entry
    rw [if_pos h]
  · intro hp hc
    unfold V4.allocate_for_entry
    rw [if_neg (by push_neg; exact ⟨hp, hc⟩)]
    have hqp : V4.wallet_balance db * V4.ALLOCATION_PCT / price * price =
        V4.wallet_balance db * V4.ALLOCATION_PCT :=
      div_mul_cancel₀ _ (ne_of_gt hp)
    simp only [hqp]
  · intro balance prec h
    unfold V7.entry_allocation
    simp [not_lt.mpr h, pyRound_zero]
  · intro balance prec h
    unfold V7.entry_allocation
    simp [h]

/-- Witness for C8's amended theorem: the guard at price 0, and the exact
quotient at balance 2, price 4. -/
theorem C8_witness :
    V4.allocate_for_entry ⟨2, [], [], []⟩ 0 = (0, 0) ∧
    V4.allocate_for_entry ⟨2, [], [], []⟩ 4 =
      (V4.wallet_balance ⟨2, [], [], []⟩ * V4.ALLOCATION_PCT / 4,
       V4.wallet_balance ⟨2, [], [], []⟩ * V4.ALLOCATION_PCT) ∧
    V7.entry_allocation 1000000 0 4 = (0, 0) :=
  ⟨(C8_allocator ⟨2, [], [], []⟩ 0).1 (Or.inl le_rfl),
   (C8_allocator ⟨2, [], [], []⟩ 4).2.1 (by norm_num)
     (by with_unfolding_all decide),
   (C8_allocator ⟨2, [], [], []⟩ 0).2.2.1 1000000 4 le_rfl⟩
theorem V7.fetch_wallet_events (db : V7.DB) : (V7.fetch_wallet db).1.events = db.events := by
  unfold V7.fetch_wallet
  cases db.wallet <;> rfl

theorem V7.handle_exit_ok_shape {db db' : V7.DB} {p : V7.Payload}
    (h : V7.handle_exit_event db p = .ok db') :
    ∃ tag price side trade entry_price spent,
      p.tag = some tag ∧ p.price = some price ∧ p.side = some side ∧
      ¬(tag = "" ∨ p.event.toUpper = "" ∨ price = 0 ∨ side = "") ∧
      db.trades.find? (fun t => t.tag = tag && t.event = "ENTRY" && t.status = "OPEN")
        = some trade ∧
      trade.entry_price = some entry_price ∧ trade.spent = some spent ∧
      db'.ledger = (V7.fetch_wallet db).1.ledger ++
        [⟨p.event.toUpper, some tag, some side, some trade.qty, some price,
          pyRound 8 (spent + V7.exit_pnl side price entry_price trade.qty),
          pyRound 8 ((V7.fetch_wallet db).2 +
            pyRound 8 (spent + V7.exit_pnl side price entry_price trade.qty))⟩] ∧
      db'.wallet = some ⟨pyRound 8 ((V7.fetch_wallet db).2 +
        pyRound 8 (spent + V7.exit_pnl side price entry_price trade.qty))⟩ ∧
      db'.trades = (⟨p.event.toUpper, side, p.symbol, price, tag, trade.qty, none, "CLOSED",
          none, none, some (V7.exit_pnl side price entry_price trade.qty)⟩ : V7.Trade) ::
        updateFirst (fun t => t.tag = tag && t.event = "ENTRY" && t.status = "OPEN")
          (fun t => { t with
            status := "CLOSED"
            exit_price := some price
            realized_pnl := some (V7.exit_pnl side price entry_price trade.qty) })
          db.trades ∧
      db'.events = db.events := by
  unfold V7.handle_exit_event at h
  split at h
  case h_2 => simp at h
  case h_1 tag price side htag hprice hside =>
    split at h
    case h_1 =>
      simp only [] at h
      split at h <;> simp at h
    case h_2 =>
      rename_i trade hfind
      split at h
      case h_2 =>
        simp only [] at h
        split at h <;> simp at h
      case h_1 entry_price spent heqe heqs =>
        simp only [] at h
        split at h
        case isTrue => simp at h
        case isFalse hvalid =>
          split at h
          case isTrue => simp at h
          case isFalse hany =>
            simp only [Except.ok.injEq] at h
            subst h
            refine ⟨tag, price, side, trade, entry_price, spent, htag, hprice, hside, hvalid,
              hfind, heqe, heqs, rfl, rfl, ?_, ?_⟩
            · simp [V7.fetch_wallet_trades]
            · simp [V7.fetch_wallet_events]

theorem V7.handle_entry_ok_shape {db db' : V7.DB} {p : V7.Payload}
    (h : V7.handle_entry_event db p = .ok db') :
    ∃ price side symbol tag,
      p.price = some price ∧ p.side = some side ∧ p.symbol = some symbol ∧ p.tag = some tag ∧
      ¬(price = 0 ∨ side = "" ∨ symbol = "" ∨ tag = "") ∧
      (∀ t ∈ db.trades, ¬(t.tag = tag ∧ t.event = "ENTRY")) ∧
      db'.ledger = (V7.fetch_wallet db).1.ledger ++
        [⟨"ENTRY", some tag, some side,
          some (V7.entry_allocation (V7.fetch_wallet db).2 price (V7.get_symbol_precision symbol)).1,
          some price,
          -(V7.entry_allocation (V7.fetch_wallet db).2 price (V7.get_symbol_precision symbol)).2,
          pyRound 8 ((V7.fetch_wallet db).2 -
            (V7.entry_allocation (V7.fetch_wallet db).2 price (V7.get_symbol_precision symbol)).2)⟩] ∧
      db'.wallet = some ⟨pyRound 8 ((V7.fetch_wallet db).2 -
        (V7.entry_allocation (V7.fetch_wallet db).2 price (V7.get_symbol_precision symbol)).2)⟩ ∧
      db'.trades = (⟨"ENTRY", side, some symbol, price, tag,
          (V7.entry_allocation (V7.fetch_wallet db).2 price (V7.get_symbol_precision symbol)).1,
          some (V7.entry_allocation (V7.fetch_wallet db).2 price (V7.get_symbol_precision symbol)).2,
          "OPEN", some price, none, none⟩ : V7.Trade) :: db.trades ∧
      db'.events = db.events := by
  unfold V7.handle_entry_event at h
  split at h
  case h_2 => simp at h
  case h_1 price side symbol tag hprice hside hsymbol htag =>
    split at h
    case isTrue => simp at h
    case isFalse hvalid =>
      simp only [] at h
      split at h
      case isTrue => simp at h
      case isFalse hany =>
        simp only [Except.ok.injEq] at h
        subst h
        rw [V7.fetch_wallet_trades] at hany
        simp only [List.any_eq_true, decide_eq_true_eq, Bool.and_eq_true, not_exists] at hany
        refine ⟨price, side, symbol, tag, hprice, hside, hsymbol, htag, hvalid, ?_, rfl, rfl,
          by simp [V7.fetch_wallet_trades], by simp [V7.fetch_wallet_events]⟩
        intro t ht hc
        exact hany t ⟨ht, hc.1, hc.2⟩

/-! ## Claim C3: cash credited by a closing transition -/

/-- C3 counterexample: in `app-v4.py`, closing 50% of a LONG opened at 100
(quantity 5000) at exit price 110 credits exactly `2500 × 110 = 275000` —
the sale proceeds — while the claimed amount, `quantity_portion ×
exit_price` plus the realized PnL of `25000`, would be `300000`; the PnL
is recorded on the trade row, not credited again. -/
theorem C3_counterexample :
    (V4.applyBodies V4.initDB [exV4Entry, exV4T1]).ledger.getLast? =
      some ⟨"EXIT_T1", some "T1", some "BUY", some 2500, some 110, 275000, 775000⟩ ∧
    ((V4.applyBodies V4.initDB [exV4Entry, exV4T1]).trades.find?
      (fun t => t.tag = "T1")).map (·.realized_pnl) = some (some 25000) ∧
    ¬ (275000 : ℚ) = 2500 * 110 + (110 - 100) * 2500 := by
  refine ⟨by with_unfolding_all rfl, by with_unfolding_all rfl, by norm_num⟩

/-- C3 (amended): every closing transition appends exactly one ledger entry
recording the credited cash.  In `app-v4.py` the credited amount is
`quantity_portion × exit_price` (the sale proceeds; the realized PnL is
accumulated on the trade row but not credited separately).  In `app_v7.py`
every successful exit credits `spent + pnl` — the recorded entry cost plus
the realized PnL, rounded to 8 decimals — in one appended entry. -/
theorem C3_closing_credit :
    (∀ (db : V4.DB) (trade : V4.Trade) (tag : String) (part x : ℚ) (ltype : String)
        (setc : V4.Trade → V4.Trade),
      (V4.realize db trade tag part x ltype setc).wallet_balance =
        db.wallet_balance + max 0 (trade.qty.getD 0 * part) * x ∧
      (V4.realize db trade tag part x ltype setc).ledger =
        db.ledger ++ [⟨ltype, some tag, trade.side, some (max 0 (trade.qty.getD 0 * part)),
          some x, max 0 (trade.qty.getD 0 * part) * x,
          db.wallet_balance + max 0 (trade.qty.getD 0 * part) * x⟩]) ∧
    (∀ (db db' : V7.DB) (p : V7.Payload), V7.handle_exit_event db p = .ok db' →
      ∃ tag price side trade entry_price spent,
        p.tag = some tag ∧ p.price = some price ∧ p.side = some side ∧
        db.trades.find? (fun t => t.tag = tag && t.event = "ENTRY" && t.status = "OPEN")
          = some trade ∧
        trade.entry_price = some entry_price ∧ trade.spent = some spent ∧
        db'.ledger = (V7.fetch_wallet db).1.ledger ++
          [⟨p.event.toUpper, some tag, some side, some trade.qty, some price,
            pyRound 8 (spent + V7.exit_pnl side price entry_price trade.qty),
            pyRound 8 ((V7.fetch_wallet db).2 +
              pyRound 8 (spent + V7.exit_pnl side price entry_price trade.qty))⟩]) := by
  constructor
  · intro db trade tag part x ltype setc
    unfold V4.realize V4.wallet_apply
    exact ⟨rfl, rfl⟩
  · intro db db' p h
    obtain ⟨tag, price, side, trade, entry_price, spent, h1, h2, h3, -, h4, h5, h6, h7, -⟩ :=
      V7.handle_exit_ok_shape h
    exact ⟨tag, price, side, trade, entry_price, spent, h1, h2, h3, h4, h5, h6, h7⟩

/-- Witness for C3's amended theorem: the v4 half-close at (5000, part 1/2,
price 110) and the concrete successful v7 exit from `exDB9`. -/
theorem C3_witness :
    ((V4.realize V4.initDB ⟨"T1", some "BUY", some 100, some "OPEN", some 5000, some 500000,
        some 0, none, none, none⟩ "T1" (1/2) 110 "EXIT_T1" id).wallet_balance =
      V4.initDB.wallet_balance + max 0 ((5000 : ℚ) * (1/2)) * 110) ∧
    (∃ tag price side trade entry_price spent,
      exExit.tag = some tag ∧ exExit.price = some price ∧ exExit.side = some side ∧
      exDB9.trades.find? (fun t => t.tag = tag && t.event = "ENTRY" && t.status = "OPEN")
        = some trade ∧
      trade.entry_price = some entry_price ∧ trade.spent = some spent ∧
      ((V7.db_transaction exDB9 (fun d => V7.handle_exit_event d exExit)).2).ledger =
        (V7.fetch_wallet exDB9).1.ledger ++
        [⟨exExit.event.toUpper, some tag, some side, some trade.qty, some price,
          pyRound 8 (spent + V7.exit_pnl side price entry_price trade.qty),
          pyRound 8 ((V7.fetch_wallet exDB9).2 +
            pyRound 8 (spent + V7.exit_pnl side price entry_price trade.qty))⟩]) :=
  ⟨(C3_closing_credit.1 V4.initDB ⟨"T1", some "BUY", some 100, some "OPEN", some 5000,
      some 500000, some 0, none, none, none⟩ "T1" (1/2) 110 "EXIT_T1" id).1,
   C3_closing_credit.2 exDB9 _ exExit (by with_unfolding_all rfl)⟩

/-! ## Claim C4: the partial-close state machine -/

/-- C4 counterexample: in `app_v7.py`, the first exit event (`TARGET1`, a
non-final kind under the configured policy) applied to an `OPEN` position
closes 100% of the quantity and moves the trade straight to `CLOSED` — not
50% and `PARTIALLY_CLOSED` as claimed: after `ENTRY` (quantity 1500) and
one `TARGET1`, the entry trade's status is `CLOSED` and the credited
ledger entry carries the full quantity 1500. -/
theorem C4_counterexample :
    ((V7.tv_webhook (V7.tv_webhook V7.initDB exEntry).2 exExit).2.trades.find?
        (fun t => t.tag = "T1" && t.event = "ENTRY")).map (·.status) = some "CLOSED" ∧
    ((V7.tv_webhook (V7.tv_webhook V7.initDB exEntry).2 exExit).2.ledger.getLast?).map
        (·.qty) = some (some 1500) ∧
    ((V7.tv_webhook (V7.tv_webhook V7.initDB exEntry).2 exExit).2.trades.find?
        (fun t => t.tag = "T1" && t.event = "ENTRY")).map (·.qty) = some 1500 ∧
    ¬ (1500 : ℚ) = 1500 * (1/2) ∧
    (V7.tv_webhook (V7.tv_webhook V7.initDB exEntry).2 exExit).1 = V7.Resp.ok := by
  refine ⟨by with_unfolding_all rfl, by with_unfolding_all rfl, by with_unfolding_all rfl,
    by norm_num, by with_unfolding_all rfl⟩

/-- C4 (amended): the 50%/remainder policy lives in `app-v4.py` and is keyed
on whether a `TARGET1` fill is recorded (`t1_price`), not on the stored
status: with a trade row present and a positive price, a first `TARGET1`
closes the portion `1/2` and sets status `PARTIAL`; a repeated `TARGET1` is
a no-op; `TARGET2` (and likewise `STOPLOSS`) closes portion `1` when no
`TARGET1` was recorded and portion `1/2` otherwise, setting status
`CLOSED_T2` (`CLOSED_SL`).  In `app_v7.py` every exit closes 100% at once
(see the counterexample). -/
theorem C4_split_policy (db db0 : V4.DB) (b : V4.Body) (trade : V4.Trade)
    (hsec : b.secret = "MY_ULTRA_SECRET")
    (hfind : db.trades.find? (fun t => t.tag = b.tag) = some trade)
    (hprice : 0 < b.price)
    (hdb0 : db0 = { db with events := (b.event.toUpper, b.tag) :: db.events }) :
    (b.event.toUpper = "TARGET1" → trade.t1_price = none →
      V4.tv_webhook db b = (.ok, V4.realize db0 trade b.tag (1/2) b.price "EXIT_T1"
        (fun t => { t with t1_price := some b.price, status := some "PARTIAL" }))) ∧
    (b.event.toUpper = "TARGET1" → ∀ tp, trade.t1_price = some tp →
      V4.tv_webhook db b = (.ok, db0)) ∧
    (b.event.toUpper = "TARGET2" → trade.t1_price = none →
      V4.tv_webhook db b = (.ok, V4.realize db0 trade b.tag 1 b.price "EXIT_T2"
        (fun t => { t with t2_price := some b.price, status := some "CLOSED_T2" }))) ∧
    (b.event.toUpper = "TARGET2" → ∀ tp, trade.t1_price = some tp →
      V4.tv_webhook db b = (.ok, V4.realize db0 trade b.tag (1/2) b.price "EXIT_T2"
        (fun t => { t with t2_price := some b.price, status := some "CLOSED_T2" }))) ∧
    (b.event.toUpper = "STOPLOSS" → trade.t1_price = none →
      V4.tv_webhook db b = (.ok, V4.realize db0 trade b.tag 1 b.price "EXIT_SL"
        (fun t => { t with sl_price := some b.price, status := some "CLOSED_SL" }))) ∧
    (b.event.toUpper = "STOPLOSS" → ∀ tp, trade.t1_price = some tp →
      V4.tv_webhook db b = (.ok, V4.realize db0 trade b.tag (1/2) b.price "EXIT_SL"
        (fun t => { t with sl_price := some b.price, status := some "CLOSED_SL" }))) := by
  subst hdb0
  refine ⟨?_, ?_, ?_, ?_, ?_, ?_⟩
  · intro hev ht1
    simp [V4.tv_webhook, hsec, hev, hfind, ht1, hprice]
  · intro hev tp ht1
    simp [V4.tv_webhook, hsec, hev, hfind, ht1, hprice]
  · intro hev ht1
    simp [V4.tv_webhook, hsec, hev, hfind, ht1, hprice]
  · intro hev tp ht1
    simp [V4.tv_webhook, hsec, hev, hfind, ht1, hprice]
  · intro hev ht1
    simp [V4.tv_webhook, hsec, hev, hfind, ht1, hprice]
  · intro hev tp ht1
    simp [V4.tv_webhook, hsec, hev, hfind, ht1, hprice]

/-- Witness for C4's amended theorem: the first `TARGET1` after the concrete
v4 `ENTRY` closes the portion `1/2` and marks the trade `PARTIAL`. -/
theorem C4_witness :
    V4.tv_webhook (V4.applyBodies V4.initDB [exV4Entry]) exV4T1 =
      (.ok, V4.realize { (V4.applyBodies V4.initDB [exV4Entry]) with
          events := (exV4T1.event.toUpper, exV4T1.tag) ::
            (V4.applyBodies V4.initDB [exV4Entry]).events }
        ⟨"T1", some "BUY", some 100, some "OPEN", some 5000, some 500000, some 0,
          none, none, none⟩
        exV4T1.tag (1/2) exV4T1.price "EXIT_T1"
        (fun t => { t with t1_price := some exV4T1.price, status := some "PARTIAL" })) :=
  (C4_split_policy (V4.applyBodies V4.initDB [exV4Entry]) _ exV4T1
    ⟨"T1", some "BUY", some 100, some "OPEN", some 5000, some 500000, some 0,
      none, none, none⟩
    rfl (by with_unfolding_all rfl) (by with_unfolding_all decide) rfl).1
    (by with_unfolding_all rfl) rfl

/-! ## Claim C1: idempotent dedup on (tag, kind) -/

theorem updateFirst_find?_none {α} (p q : α → Bool) (f : α → α) (l : List α)
    (hpq : ∀ a, p a = true → q a = true)
    (hf : ∀ a, p (f a) = false)
    (huniq : l.Pairwise fun a b => ¬(q a = true ∧ q b = true)) :
    (updateFirst p f l).find? p = none := by
  induction l with
  | nil => rfl
  | cons a t ih =>
      rw [updateFirst]
      rcases List.pairwise_cons.mp huniq with ⟨hab, htail⟩
      by_cases ha : p a = true
      · rw [if_pos ha]
        rw [List.find?_cons_of_neg _ (by simp [hf a])]
        apply List.find?_eq_none.mpr
        intro b hb hpb
        exact hab b hb ⟨hpq a ha, hpq b hpb⟩
      · rw [if_neg ha]
        rw [List.find?_cons_of_neg _ ha]
        exact ih htail

theorem V7.process_ok_secret {db db1 : V7.DB} {p : V7.Payload}
    (h : V7.process_webhook db p = .ok db1) : p.secret = "MY_ULTRA_SECRET" := by
  unfold V7.process_webhook at h
  split at h
  · simp at h
  · rename_i hs
    exact not_not.mp hs

theorem V7.process_ok_entry {db db1 : V7.DB} {p : V7.Payload}
    (h : V7.process_webhook db p = .ok db1) (hev : p.event.toUpper = "ENTRY") :
    V7.handle_entry_event db p = .ok db1 := by
  unfold V7.process_webhook at h
  split at h
  · simp at h
  · simp only [] at h
    rw [if_pos hev] at h
    exact h

theorem V7.process_ok_exit {db db1 : V7.DB} {p : V7.Payload}
    (h : V7.process_webhook db p = .ok db1)
    (hev : p.event.toUpper = "TARGET1" ∨ p.event.toUpper = "STOPLOSS" ∨
      p.event.toUpper = "TARGET2" ∨ p.event.toUpper = "TARGET3") :
    V7.handle_exit_event db p = .ok db1 := by
  have hne : ¬ p.event.toUpper = "ENTRY" := by
    rcases hev with h' | h' | h' | h' <;> rw [h'] <;> decide
  unfold V7.process_webhook at h
  split at h
  · simp at h
  · simp only [] at h
    rw [if_neg hne, if_pos hev] at h
    exact h

/-- C1 counterexample: for exit kinds the second identical `(tag, kind)`
call is not answered with the duplicate response: after `ENTRY` and one
applied `TARGET1` on tag `T1`, a second identical `TARGET1` is rejected
with the `No open ENTRY trade found` validation error (HTTP 400), because
the open-trade lookup fails before the `UNIQUE(tag, event)` constraint is
ever reached. -/
theorem C1_counterexample :
    (V7.tv_webhook (V7.tv_webhook V7.initDB exEntry).2 exExit).1 = V7.Resp.ok ∧
    (V7.tv_webhook (V7.tv_webhook (V7.tv_webhook V7.initDB exEntry).2 exExit).2 exExit).1 =
      V7.Resp.clientError "No open ENTRY trade found for tag: T1" ∧
    (V7.tv_webhook (V7.tv_webhook (V7.tv_webhook V7.initDB exEntry).2 exExit).2 exExit).1 ≠
      V7.Resp.duplicate := by
  refine ⟨by with_unfolding_all rfl, by with_unfolding_all rfl, by with_unfolding_all decide⟩

/-- C1 (amended): for `ENTRY` events the claim holds in v7 — the second
identical `(tag, ENTRY)` call runs into the storage-layer
`UNIQUE(tag, event)` constraint, the engine converts the violation into
the `duplicate_ignored` response, and the state (hence the balance) is
exactly the state after the first applied call.  For exit kinds the second
identical call is instead rejected as a validation error (`No open ENTRY
trade found`) before the uniqueness constraint is ever reached, likewise
performing no further mutation. -/
theorem C1_same_event_twice (db db1 : V7.DB) (p : V7.Payload)
    (hinv : V7.TradesUnique db)
    (hfirst : V7.tv_webhook db p = (.ok, db1)) :
    (p.event.toUpper = "ENTRY" → V7.tv_webhook db1 p = (.duplicate, db1)) ∧
    (p.event.toUpper = "TARGET1" ∨ p.event.toUpper = "STOPLOSS" ∨
        p.event.toUpper = "TARGET2" ∨ p.event.toUpper = "TARGET3" →
      ∀ tag0, p.tag = some tag0 →
      V7.tv_webhook db1 p =
        (.clientError ("No open ENTRY trade found for tag: " ++ tag0), db1)) := by
  have hpw := V7.tv_webhook_eq_ok.mp hfirst
  have hsec := V7.process_ok_secret hpw
  constructor
  · intro hev
    have hok := V7.process_ok_entry hpw hev
    obtain ⟨price, side, symbol, tag, hprice, hside, hsymbol, htag, hvalid, hnodup,
      hledger, hwallet, htrades, hevents⟩ := V7.handle_entry_ok_shape hok
    apply V7.tv_webhook_of_integrityUnique
    simp only [V7.process_webhook, V7.handle_entry_event, V7.fetch_wallet,
      hsec, hev, hprice, hside, hsymbol, htag, hwallet, htrades]
    simp [hvalid]
  · intro hev tag0 htag0
    have hok := V7.process_ok_exit hpw hev
    obtain ⟨tag, price, side, trade, entry_price, spent, htag, hprice, hside, hvalid,
      hfind, heqe, heqs, hledger, hwallet, htrades, hevents⟩ := V7.handle_exit_ok_shape hok
    rw [htag0] at htag
    obtain rfl : tag = tag0 := by
      injection htag with hinj
      exact hinj.symm
    push_neg at hvalid
    obtain ⟨htagne, hevne, hpne, hsne⟩ := hvalid
    have hne : ¬ p.event.toUpper = "ENTRY" := by
      rcases hev with h' | h' | h' | h' <;> rw [h'] <;> decide
    have hnone : db1.trades.find?
        (fun t => t.tag = tag && t.event = "ENTRY" && t.status = "OPEN") = none := by
      rw [htrades]
      rw [List.find?_cons_of_neg _ (by simp [hne])]
      apply updateFirst_find?_none _ (fun t => t.tag = tag && t.event = "ENTRY")
      · intro a hp
        revert hp
        simp
        tauto
      · intro a
        simp
      · refine hinv.imp ?_
        intro a b hab hq
        simp only [Bool.and_eq_true, decide_eq_true_eq] at hq
        exact hab ⟨hq.1.1.trans hq.2.1.symm, hq.1.2.trans hq.2.2.symm⟩
    apply V7.tv_webhook_of_valueError
    simp only [V7.process_webhook, V7.handle_exit_event, hsec, htag0, hprice, hside, hnone]
    rcases hev with h' | h' | h' | h' <;>
      simp [h', htagne, hpne, hsne]

/-- Witness for C1's amended theorem: the duplicate `ENTRY` on tag `T1`. -/
theorem C1_witness :
    V7.tv_webhook ((V7.tv_webhook V7.initDB exEntry).2) exEntry =
      (.duplicate, (V7.tv_webhook V7.initDB exEntry).2) :=
  (C1_same_event_twice V7.initDB ((V7.tv_webhook V7.initDB exEntry).2) exEntry
    (by with_unfolding_all decide) (by with_unfolding_all rfl)).1
    (by with_unfolding_all rfl)

/-! ## Claim C6: audit-trail reconciliation -/

theorem V7.ledgerOkB_initDB : V7.ledgerOkB V7.initDB = true := by
  with_unfolding_all rfl

theorem V7.ledgerOkB_seeded (db : V7.DB) (hl : db.ledger = []) :
    V7.ledgerOkB { db with wallet := some ⟨1000000⟩, ledger := db.ledger ++
      [⟨"INITIAL_DEPOSIT", none, none, none, none, 1000000, 1000000⟩] } = true := by
  unfold V7.ledgerOkB V7.ledgerPairs
  rw [hl]
  norm_num [chainOkB, lastBal, sumAmounts]
  exact dec8B_million

theorem V7.fetch_wallet_ok (db : V7.DB) (h : V7.ledgerOkB db = true) :
    V7.ledgerOkB (V7.fetch_wallet db).1 = true ∧
    (V7.fetch_wallet db).1.wallet = some ⟨(V7.fetch_wallet db).2⟩ ∧
    (V7.fetch_wallet db).2 = lastBal 0 (V7.ledgerPairs (V7.fetch_wallet db).1) ∧
    (V7.fetch_wallet db).2 = sumAmounts (V7.ledgerPairs (V7.fetch_wallet db).1) ∧
    dec8B (V7.fetch_wallet db).2 = true := by
  have hcopy := h
  unfold V7.ledgerOkB at h
  split at h
  case h_2 => simp at h
  case h_3 => simp at h
  case h_1 hw hl =>
      unfold V7.fetch_wallet
      rw [hw]
      refine ⟨V7.ledgerOkB_seeded db hl, rfl, ?_, ?_, dec8B_million⟩
      · unfold V7.ledgerPairs
        rw [hl]
        simp [lastBal]
      · unfold V7.ledgerPairs
        rw [hl]
        simp [sumAmounts]
  case h_4 w e0 rest hw hl =>
      simp only [Bool.and_eq_true, decide_eq_true_eq] at h
      obtain ⟨⟨⟨⟨h1, h2⟩, h3⟩, h4⟩, h5⟩ := h
      have hfw : V7.fetch_wallet db = (db, w.balance) := by
        unfold V7.fetch_wallet
        rw [hw]
      rw [hfw]
      exact ⟨hcopy, hw, h3, h4, h5⟩

theorem V7.ledgerOkB_append {F db' : V7.DB} {wF : V7.Wallet} {amt : ℚ}
    {ty : String} {tg sd : Option String} {q pr : Option ℚ}
    (hF : V7.ledgerOkB F = true) (hwF : F.wallet = some wF)
    (hamt8 : dec8B amt = true)
    (hl : db'.ledger = F.ledger ++ [⟨ty, tg, sd, q, pr, amt, pyRound 8 (wF.balance + amt)⟩])
    (hw : db'.wallet = some ⟨pyRound 8 (wF.balance + amt)⟩) :
    V7.ledgerOkB db' = true := by
  unfold V7.ledgerOkB at hF
  split at hF
  case h_1 hw0 hl0 => rw [hw0] at hwF; simp at hwF
  case h_2 => simp at hF
  case h_3 => simp at hF
  case h_4 w0 e0 rest hw0 hl0 =>
  rw [hw0] at hwF
  obtain rfl : wF = w0 := (Option.some.inj hwF).symm
  simp only [Bool.and_eq_true, decide_eq_true_eq] at hF
  obtain ⟨⟨⟨⟨h1, h2⟩, h3⟩, h4⟩, h5⟩ := hF
  have hd8 : dec8B (wF.balance + amt) = true := dec8B_add h5 hamt8
  have hid : pyRound 8 (wF.balance + amt) = wF.balance + amt := pyRound8_dec8_id hd8
  have hpairs : V7.ledgerPairs db' = V7.ledgerPairs F ++
      [(amt, pyRound 8 (wF.balance + amt))] := by
    unfold V7.ledgerPairs
    rw [hl]
    all_goals simp
  have hl2 : db'.ledger = e0 ::
      (rest ++ [⟨ty, tg, sd, q, pr, amt, pyRound 8 (wF.balance + amt)⟩]) := by
    rw [hl, hl0]
    simp
  unfold V7.ledgerOkB
  rw [hw, hl2]
  simp only []
  rw [hpairs]
  rw [chainOkB_append, lastBal_append, sumAmounts_append]
  simp only [Bool.and_eq_true, decide_eq_true_eq]
  exact ⟨⟨⟨⟨h1, h2, by rw [hid, ← h3]⟩, trivial⟩, by rw [hid, h4]⟩, dec8B_pyRound8 _⟩

theorem V7.inv_handle_entry {db db' : V7.DB} {p : V7.Payload}
    (hok : V7.ledgerOkB db = true) (h : V7.handle_entry_event db p = .ok db') :
    V7.ledgerOkB db' = true := by
  obtain ⟨price, side, symbol, tag, -, -, -, -, -, -, hledger, hwallet, -, -⟩ :=
    V7.handle_entry_ok_shape h
  obtain ⟨hF, hwF, -, -, -⟩ := V7.fetch_wallet_ok db hok
  rw [sub_eq_add_neg] at hledger hwallet
  have hsp : (V7.entry_allocation (V7.fetch_wallet db).2 price
      (V7.get_symbol_precision symbol)).2 =
      pyRound 8 ((V7.entry_allocation (V7.fetch_wallet db).2 price
        (V7.get_symbol_precision symbol)).1 * price) := rfl
  have hd : dec8B (-((V7.entry_allocation (V7.fetch_wallet db).2 price
      (V7.get_symbol_precision symbol)).2)) = true := by
    apply dec8B_neg
    rw [hsp]
    exact dec8B_pyRound8 _
  exact V7.ledgerOkB_append hF hwF hd hledger hwallet

theorem V7.inv_handle_exit {db db' : V7.DB} {p : V7.Payload}
    (hok : V7.ledgerOkB db = true) (h : V7.handle_exit_event db p = .ok db') :
    V7.ledgerOkB db' = true := by
  obtain ⟨tag, price, side, trade, entry_price, spent, -, -, -, -, -, -, -,
    hledger, hwallet, -, -⟩ := V7.handle_exit_ok_shape h
  obtain ⟨hF, hwF, -, -, -⟩ := V7.fetch_wallet_ok db hok
  exact V7.ledgerOkB_append hF hwF (dec8B_pyRound8 _) hledger hwallet

theorem V7.inv_tv_webhook (db : V7.DB) (p : V7.Payload) (hok : V7.ledgerOkB db = true) :
    V7.ledgerOkB (V7.tv_webhook db p).2 = true := by
  rcases hr : V7.tv_webhook db p with ⟨r, db'⟩
  simp only []
  by_cases hro : r = V7.Resp.ok
  · subst hro
    have hpw := V7.tv_webhook_eq_ok.mp hr
    unfold V7.process_webhook at hpw
    split at hpw
    · simp at hpw
    · simp only [] at hpw
      split at hpw
      · exact V7.inv_handle_entry hok hpw
      · split at hpw
        · exact V7.inv_handle_exit hok hpw
        · simp only [Except.ok.injEq] at hpw
          subst hpw
          exact hok
  · rw [V7.tv_webhook_not_ok_frame hr hro]
    exact hok

theorem V7.inv_applyEvents (ps : List V7.Payload) (db : V7.DB)
    (hok : V7.ledgerOkB db = true) : V7.ledgerOkB (V7.applyEvents db ps) = true := by
  induction ps generalizing db with
  | nil => exact hok
  | cons p ps ih =>
      unfold V7.applyEvents
      simp only [List.foldl_cons]
      exact ih _ (V7.inv_tv_webhook db p hok)

theorem V4.ledgerOkB_wallet_apply (db : V4.DB) (h : V4.ledgerOkB db = true)
    (delta : ℚ) (ltype : String) (tag side : Option String) (qty price : Option ℚ) :
    V4.ledgerOkB (V4.wallet_apply db delta ltype tag side qty price) = true := by
  unfold V4.ledgerOkB at h
  split at h
  case h_1 => simp at h
  case h_2 e0 rest hl0 =>
  simp only [Bool.and_eq_true, decide_eq_true_eq] at h
  obtain ⟨⟨⟨h1, h2⟩, h3⟩, h4⟩ := h
  have hpairs : V4.ledgerPairs (V4.wallet_apply db delta ltype tag side qty price) =
      V4.ledgerPairs db ++ [(delta, db.wallet_balance + delta)] := by
    unfold V4.ledgerPairs V4.wallet_apply
    simp
  have hl2 : (V4.wallet_apply db delta ltype tag side qty price).ledger = e0 ::
      (rest ++ [⟨ltype, tag, side, qty, price, delta, db.wallet_balance + delta⟩]) := by
    unfold V4.wallet_apply
    simp only []
    rw [hl0]
    simp
  have hb2 : (V4.wallet_apply db delta ltype tag side qty price).wallet_balance =
      db.wallet_balance + delta := rfl
  unfold V4.ledgerOkB
  rw [hl2, hb2, hpairs]
  rw [chainOkB_append, lastBal_append, sumAmounts_append]
  simp only [Bool.and_eq_true, decide_eq_true_eq]
  exact ⟨⟨⟨h1, h2, by rw [← h3]⟩, trivial⟩, by rw [h4]⟩

theorem V4.ledgerOkB_realize (db : V4.DB) (h : V4.ledgerOkB db = true)
    (trade : V4.Trade) (tag : String) (part exit_price : ℚ) (ltype : String)
    (setc : V4.Trade → V4.Trade) :
    V4.ledgerOkB (V4.realize db trade tag part exit_price ltype setc) = true := by
  unfold V4.realize
  simp only []
  exact V4.ledgerOkB_wallet_apply db h _ _ _ _ _ _


set_option maxRecDepth 8000 in
theorem V4.inv_tv_webhook_v4 (db : V4.DB) (b : V4.Body) (h : V4.ledgerOkB db = true) :
    V4.ledgerOkB (V4.tv_webhook db b).2 = true := by
  have hev : V4.ledgerOkB { db with
      events := (b.event.toUpper, b.tag) :: db.events } = true := h
  unfold V4.tv_webhook
  split
  · exact h
  · simp only []
    repeat' split
    any_goals exact hev
    all_goals
      first
        | exact V4.ledgerOkB_realize _ hev _ _ _ _ _ _
        | exact V4.ledgerOkB_wallet_apply _ hev _ _ _ _ _ _

theorem V4.inv_applyBodies (bs : List V4.Body) (db : V4.DB)
    (hok : V4.ledgerOkB db = true) : V4.ledgerOkB (V4.applyBodies db bs) = true := by
  induction bs generalizing db with
  | nil => exact hok
  | cons b bs ih =>
      unfold V4.applyBodies
      simp only [List.foldl_cons]
      exact ih _ (V4.inv_tv_webhook_v4 db b hok)

theorem V4.ledgerOkB_initDB_v4 : V4.ledgerOkB V4.initDB = true := by
  unfold V4.ledgerOkB V4.initDB V4.ledgerPairs V4.START_BALANCE
  norm_num [chainOkB, lastBal, sumAmounts]

/-- C6: in every state reachable by a stream of webhook events from the
initial database — in particular after every successfully applied
cash-affecting event — the audit trail reconciles, in both the v7 and the
v4 implementations: the journal's first entry records the 1,000,000 seed,
each entry's `balance_after` is the previous entry's `balance_after` plus
the entry's signed amount, and the stored wallet balance equals both the
last `balance_after` and the sum of every signed amount (equivalently, the
seed plus every post-seed amount). -/
theorem C6_ledger_reconciliation (ps : List V7.Payload) (bs : List V4.Body) :
    V7.ledgerOkB (V7.applyEvents V7.initDB ps) = true ∧
    V4.ledgerOkB (V4.applyBodies V4.initDB bs) = true :=
  ⟨V7.inv_applyEvents ps V7.initDB V7.ledgerOkB_initDB,
   V4.inv_applyBodies bs V4.initDB V4.ledgerOkB_initDB_v4⟩

/-- Witness for C6 on the concrete entry-then-exit streams. -/
theorem C6_witness :
    V7.ledgerOkB (V7.applyEvents V7.initDB [exEntry, exExit]) = true ∧
    V4.ledgerOkB (V4.applyBodies V4.initDB [exV4Entry, exV4T1, exV4T2]) = true :=
  C6_ledger_reconciliation [exEntry, exExit] [exV4Entry, exV4T1, exV4T2]
